import Mathlib

/-!
Shallow embedding of the `owning_bytes` crate (src/lib.rs): the container
`OwningByteBuf<T>` owns a contiguous block of bytes together with a value
`T` derived from those bytes.

Modelling choices:
* a byte is a `Nat`; a raw allocation (the memory behind a pointer) is the
  list of bytes stored in it;
* `Vec<u8>` is its allocated block plus the recorded `len` and `cap`;
  `Box<[u8]>` is just its block, since its length and capacity coincide;
* the destructor is modelled as an explicit event trace: Rust drop glue
  runs `Drop::drop` first and then drops the fields in declaration order,
  so `destroy` is the `Drop::drop` trace followed by the drop of `inner`.
-/

namespace OwningBytes

/-- A byte of memory. -/
abbrev Byte := Nat

/-- Model of Rust `Vec<u8>`: `mem` is the allocated block behind
`as_mut_ptr` (the memory of the allocation), `len` the number of logical
elements, `cap` the recorded capacity. -/
structure Vec where
  mem : List Byte
  len : Nat
  cap : Nat
deriving Repr, DecidableEq

/-- Model of `slice::from_raw_parts(ptr, len)`: the first `len` bytes of
the block that `ptr` points to. -/
def readSlice (block : List Byte) (len : Nat) : List Byte :=
  block.take len

/-- The logical contents of a vector: the bytes `[0, len)` of its block. -/
def Vec.data (v : Vec) : List Byte :=
  readSlice v.mem v.len

/-- Model of `Vec::from_raw_parts(ptr, len, cap)`: the vector whose block
is the allocation behind `ptr` and whose length and capacity are as
given. -/
def Vec.from_raw_parts (mem : List Byte) (len cap : Nat) : Vec :=
  { mem := mem, len := len, cap := cap }

/-- Model of Rust `Box<[u8]>`: a block whose logical length equals its
allocated capacity, so the block alone describes it. -/
abbrev BoxSlice := List Byte

/-- `OwningByteBuf<T>` (src/lib.rs lines 69 to 74): `resource` models the
block of memory behind the `Unique<u8>` pointer, `len` and `cap` the
recorded length and capacity, `inner` the derived value. -/
structure OwningByteBuf (T : Type) where
  resource : List Byte
  len : Nat
  cap : Nat
  inner : T
deriving Repr, DecidableEq

variable {T E : Type}

/-- `OwningByteBuf::from_vec` (src/lib.rs lines 78 to 96): records the
pointer, length and capacity of `buf`, applies `f` to
`slice::from_raw_parts(ptr, len)`, stores the result, and forgets the
original handle (ownership of the block moves into the container). -/
def OwningByteBuf.from_vec (buf : Vec) (f : List Byte → T) : OwningByteBuf T :=
  let ptr := buf.mem
  let len := buf.len
  let cap := buf.cap
  { resource := ptr, len := len, cap := cap, inner := f (readSlice ptr len) }

/-- `OwningByteBuf::from_vec_res` (src/lib.rs lines 108 to 127): like
`from_vec`, but when `f` fails the construction aborts with an early
return of the error paired with the untouched `buf`; the struct literal is
never completed, so no container is produced. -/
def OwningByteBuf.from_vec_res (buf : Vec) (f : List Byte → Except E T) :
    Except (E × Vec) (OwningByteBuf T) :=
  let ptr := buf.mem
  let len := buf.len
  let cap := buf.cap
  match f (readSlice ptr len) with
  | .ok t => .ok { resource := ptr, len := len, cap := cap, inner := t }
  | .error e => .error (e, buf)

/-- `OwningByteBuf::from_box` (src/lib.rs lines 130 to 145): records the
pointer and length of the boxed slice, uses the length as the capacity,
applies `f` to `slice::from_raw_parts(ptr, len)` and forgets the original
handle. -/
def OwningByteBuf.from_box (buf : BoxSlice) (f : List Byte → T) : OwningByteBuf T :=
  let ptr := buf
  let len := buf.length
  { resource := ptr, len := len, cap := len, inner := f (readSlice ptr len) }

/-- `OwningByteBuf::from_box_res` (src/lib.rs lines 148 to 168): like
`from_box`, but when `f` fails the construction aborts with an early
return of the error paired with the untouched `buf`. -/
def OwningByteBuf.from_box_res (buf : BoxSlice) (f : List Byte → Except E T) :
    Except (E × BoxSlice) (OwningByteBuf T) :=
  let ptr := buf
  let len := buf.length
  match f (readSlice ptr len) with
  | .ok t => .ok { resource := ptr, len := len, cap := len, inner := t }
  | .error e => .error (e, buf)

/-- `OwningByteBuf::get` (src/lib.rs lines 170 to 173): the value observed
through the accessor, a pure read of the `inner` field. -/
def OwningByteBuf.get (c : OwningByteBuf T) : T :=
  c.inner

/-- `AsRef<T> for OwningByteBuf<T>` (src/lib.rs lines 190 to 194): defined
in the source as a call to `get`. -/
def OwningByteBuf.as_ref (c : OwningByteBuf T) : T :=
  c.get

/-- `OwningByteBuf::into_vec` (src/lib.rs lines 176 to 187): rebuilds the
vector from the recorded parts with `Vec::from_raw_parts`, then zeroes
`cap` and `len` on `self`. The pair is the returned vector together with
the state of `self` at the end of the body; the destructor then runs
automatically on that state. -/
def OwningByteBuf.into_vec (c : OwningByteBuf T) : Vec × OwningByteBuf T :=
  let vec := Vec.from_raw_parts c.resource c.len c.cap
  (vec, { c with cap := 0, len := 0 })

/-- Observable heap events of destroying a container: `deallocate n` is
`heap::deallocate` of `n` bytes of the recorded block, `dropValue` is the
field drop of `inner`. -/
inductive DropEvent
  | deallocate (numBytes : Nat)
  | dropValue
deriving Repr, DecidableEq

/-- `Drop::drop` for `OwningByteBuf` (src/lib.rs lines 196 to 208): with
`elem_size = size_of::<u8>() = 1`, computes `num_bytes = elem_size * cap`
and calls `heap::deallocate` exactly when `num_bytes > 0`. -/
def OwningByteBuf.dropImpl (c : OwningByteBuf T) : List DropEvent :=
  let elem_size := 1
  let num_bytes := elem_size * c.cap
  if num_bytes > 0 then [DropEvent.deallocate num_bytes] else []

/-- The full destructor of an `OwningByteBuf` value: Rust drop glue first
calls `Drop::drop`, then drops the fields `resource`, `len`, `cap`,
`inner` in declaration order; the only field whose drop does anything is
`inner`. -/
def OwningByteBuf.destroy (c : OwningByteBuf T) : List DropEvent :=
  c.dropImpl ++ [DropEvent.dropValue]

/-- Claim C1: a failed fallible construction returns the error paired with
the original storage unchanged — the very value supplied, hence the same
bytes, length and capacity — and no container is produced (the result is
the error branch), for both `from_vec_res` and `from_box_res`. -/
theorem from_res_failure_returns_storage (b : Vec) (f : List Byte → Except E T)
    (bx : BoxSlice) (g : List Byte → Except E T) (e1 e2 : E)
    (hf : f (Vec.data b) = .error e1)
    (hg : g (readSlice bx bx.length) = .error e2) :
    OwningByteBuf.from_vec_res b f = .error (e1, b) ∧
    OwningByteBuf.from_box_res bx g = .error (e2, bx) := by
  constructor
  · simp only [OwningByteBuf.from_vec_res]
    rw [show readSlice b.mem b.len = Vec.data b from rfl, hf]
  · simp only [OwningByteBuf.from_box_res]
    rw [hg]

/-- Witness for claim C1 at concrete inputs: both fallible constructors,
given always-failing functions, hand back the error with the storage. -/
theorem from_res_failure_returns_storage_witness :
    OwningByteBuf.from_vec_res { mem := [0, 1, 2, 3], len := 4, cap := 4 }
        (fun _ => (Except.error 7 : Except Nat Unit)) =
      .error (7, { mem := [0, 1, 2, 3], len := 4, cap := 4 }) ∧
    OwningByteBuf.from_box_res [0, 1, 2, 3]
        (fun _ => (Except.error 9 : Except Nat Unit)) =
      .error (9, [0, 1, 2, 3]) :=
  from_res_failure_returns_storage
    { mem := [0, 1, 2, 3], len := 4, cap := 4 } _ [0, 1, 2, 3] _ 7 9 rfl rfl

/-- Claim C2 as stated is false: at a container of capacity 1 the
destructor trace begins with the deallocation, not with the drop of the
derived value, because Rust runs `Drop::drop` before field destruction. -/
theorem destructor_value_first_counterexample :
    OwningByteBuf.destroy { resource := [7], len := 1, cap := 1, inner := () } =
      [DropEvent.deallocate 1, DropEvent.dropValue] ∧
    OwningByteBuf.destroy { resource := [7], len := 1, cap := 1, inner := () } ≠
      [DropEvent.dropValue, DropEvent.deallocate 1] := by
  constructor <;> decide

/-- Claim C2 amended: when a container is destroyed without having been
decomposed, the destructor first releases the byte memory — and it does so
if and only if the recorded capacity is nonzero — and only afterwards
drops the derived value, because `Drop::drop` runs before the fields are
dropped. -/
theorem destructor_release_then_value (c : OwningByteBuf T) :
    OwningByteBuf.destroy c =
      (if 0 < c.cap then [DropEvent.deallocate c.cap] else []) ++
        [DropEvent.dropValue] ∧
    (DropEvent.deallocate c.cap ∈ OwningByteBuf.destroy c ↔ 0 < c.cap) := by
  rcases Nat.eq_zero_or_pos c.cap with h | h <;>
    simp [OwningByteBuf.destroy, OwningByteBuf.dropImpl, h]

/-- Claim C3: decomposing a container built from a vector returns that
vector itself — same contents, same length, same capacity — for every
constructing function, in particular every identity-shaped one. -/
theorem into_vec_from_vec_round_trip (b : Vec) (f : List Byte → T) :
    (OwningByteBuf.into_vec (OwningByteBuf.from_vec b f)).1 = b :=
  rfl

/-- Claim C4: `into_vec` zeroes the container's capacity and length before
the derived value is dropped, so the destructor that then runs on the
container performs no deallocation: the memory leaves only through the
returned vector. -/
theorem into_vec_zeroes_before_value_drop (c : OwningByteBuf T) :
    ((c.into_vec.2).cap = 0 ∧ (c.into_vec.2).len = 0) ∧
    OwningByteBuf.destroy c.into_vec.2 = [DropEvent.dropValue] :=
  ⟨⟨rfl, rfl⟩, rfl⟩

/-- Claim C5: the value observed through the accessor of a container built
from `b` equals the constructing function applied directly to the logical
bytes of `b`; `get` is a pure total read with no failure path. -/
theorem get_from_vec (b : Vec) (f : List Byte → T) :
    (OwningByteBuf.from_vec b f).get = f (Vec.data b) :=
  rfl

/-- Claim C6: on a container whose recorded capacity is zero the release
step of the destructor is a no-op — it emits no deallocation and the whole
destructor trace is just the field drop of the value. -/
theorem drop_release_zero_cap_noop (c : OwningByteBuf T) (h : c.cap = 0) :
    c.dropImpl = [] ∧ c.destroy = [DropEvent.dropValue] := by
  simp [OwningByteBuf.dropImpl, OwningByteBuf.destroy, h]

/-- Witness for claim C6 at a concrete decomposed-like container. -/
theorem drop_release_zero_cap_noop_witness :
    OwningByteBuf.dropImpl { resource := [], len := 0, cap := 0, inner := () } = [] ∧
    OwningByteBuf.destroy { resource := [], len := 0, cap := 0, inner := () } =
      [DropEvent.dropValue] :=
  drop_release_zero_cap_noop { resource := [], len := 0, cap := 0, inner := () } rfl

/-- Claim C7: every constructor records the storage's block, length and
capacity and applies the caller's function to exactly the bytes
`[0, length)` of the block — `readSlice`, not the full block — storing the
result as `inner`; for the boxed constructors the slice is the whole box
and the capacity is the length. -/
theorem constructors_record_and_slice (b : Vec) (f : List Byte → T)
    (bx : BoxSlice) (f2 : List Byte → T)
    (g : List Byte → Except E T) (g2 : List Byte → Except E T) (t t2 : T)
    (hg : g (readSlice b.mem b.len) = .ok t)
    (hg2 : g2 (readSlice bx bx.length) = .ok t2) :
    ((OwningByteBuf.from_vec b f).resource = b.mem ∧
      (OwningByteBuf.from_vec b f).len = b.len ∧
      (OwningByteBuf.from_vec b f).cap = b.cap ∧
      (OwningByteBuf.from_vec b f).inner = f (readSlice b.mem b.len)) ∧
    ((OwningByteBuf.from_box bx f2).resource = bx ∧
      (OwningByteBuf.from_box bx f2).len = bx.length ∧
      (OwningByteBuf.from_box bx f2).cap = bx.length ∧
      (OwningByteBuf.from_box bx f2).inner = f2 (readSlice bx bx.length) ∧
      (OwningByteBuf.from_box bx f2).inner = f2 bx) ∧
    OwningByteBuf.from_vec_res b g =
      .ok { resource := b.mem, len := b.len, cap := b.cap, inner := t } ∧
    OwningByteBuf.from_box_res bx g2 =
      .ok { resource := bx, len := bx.length, cap := bx.length, inner := t2 } := by
  refine ⟨⟨rfl, rfl, rfl, rfl⟩, ⟨rfl, rfl, rfl, rfl, ?_⟩, ?_, ?_⟩
  · simp [OwningByteBuf.from_box, readSlice]
  · simp only [OwningByteBuf.from_vec_res]
    rw [hg]
  · simp only [OwningByteBuf.from_box_res]
    rw [hg2]

/-- Witness for claim C7 at concrete inputs, with an identity function as
the ok-returning fallible constructor. -/
theorem constructors_record_and_slice_witness :
    (((OwningByteBuf.from_vec { mem := [5, 6, 7], len := 2, cap := 3 } id).resource
          = [5, 6, 7] ∧
        (OwningByteBuf.from_vec { mem := [5, 6, 7], len := 2, cap := 3 } id).len = 2 ∧
        (OwningByteBuf.from_vec { mem := [5, 6, 7], len := 2, cap := 3 } id).cap = 3 ∧
        (OwningByteBuf.from_vec { mem := [5, 6, 7], len := 2, cap := 3 } id).inner
          = id (readSlice [5, 6, 7] 2)) ∧
      ((OwningByteBuf.from_box [8, 9] id).resource = [8, 9] ∧
        (OwningByteBuf.from_box [8, 9] id).len = [8, 9].length ∧
        (OwningByteBuf.from_box [8, 9] id).cap = [8, 9].length ∧
        (OwningByteBuf.from_box [8, 9] id).inner = id (readSlice [8, 9] [8, 9].length) ∧
        (OwningByteBuf.from_box [8, 9] id).inner = id [8, 9]) ∧
      OwningByteBuf.from_vec_res { mem := [5, 6, 7], len := 2, cap := 3 }
          (Except.ok (ε := Unit)) =
        .ok { resource := [5, 6, 7], len := 2, cap := 3, inner := [5, 6] } ∧
      OwningByteBuf.from_box_res [8, 9] (Except.ok (ε := Unit)) =
        .ok { resource := [8, 9], len := [8, 9].length, cap := [8, 9].length,
              inner := [8, 9] }) :=
  constructors_record_and_slice { mem := [5, 6, 7], len := 2, cap := 3 } id
    [8, 9] id (Except.ok (ε := Unit)) (Except.ok (ε := Unit)) [5, 6] [8, 9] rfl rfl

/-- Claim C8: a container built from a boxed slice has its recorded length
equal to its recorded capacity, for both `from_box` and (on success)
`from_box_res`; no operation of the container mutates these fields, so the
equality persists until decomposition or destruction. -/
theorem from_box_len_eq_cap (bx : BoxSlice) (f : List Byte → T)
    (g : List Byte → Except E T) (c : OwningByteBuf T)
    (h : OwningByteBuf.from_box_res bx g = .ok c) :
    (OwningByteBuf.from_box bx f).len = (OwningByteBuf.from_box bx f).cap ∧
    c.len = c.cap := by
  refine ⟨rfl, ?_⟩
  simp only [OwningByteBuf.from_box_res] at h
  cases heq : g (readSlice bx bx.length) with
  | ok t =>
    rw [heq] at h
    cases h
    rfl
  | error e =>
    rw [heq] at h
    cases h

/-- Witness for claim C8 at a concrete boxed slice. -/
theorem from_box_len_eq_cap_witness :
    (OwningByteBuf.from_box [1, 2] id).len = (OwningByteBuf.from_box [1, 2] id).cap ∧
    (OwningByteBuf.mk [1, 2] 2 2 [1, 2]).len = (OwningByteBuf.mk [1, 2] 2 2 [1, 2]).cap :=
  from_box_len_eq_cap [1, 2] id (Except.ok (ε := Unit))
    (OwningByteBuf.mk [1, 2] 2 2 [1, 2]) rfl

/-- Claim C9: the `AsRef` implementation coincides with the accessor: for
every container, `as_ref` returns exactly what `get` returns (the source
defines it as a call to `get`). -/
theorem as_ref_eq_get (c : OwningByteBuf T) : c.as_ref = c.get :=
  rfl

/-- Claim C10: decomposing a container built from a boxed slice always
returns a `Vec` whose block is the box, whose length is the box's length
and whose capacity equals that length, whatever the constructing function:
decomposition has a single return shape regardless of origin. -/
theorem into_vec_from_box_shape (bx : BoxSlice) (f : List Byte → T) :
    (OwningByteBuf.into_vec (OwningByteBuf.from_box bx f)).1 =
      Vec.from_raw_parts bx bx.length bx.length ∧
    ((OwningByteBuf.into_vec (OwningByteBuf.from_box bx f)).1).cap =
      ((OwningByteBuf.into_vec (OwningByteBuf.from_box bx f)).1).len :=
  ⟨rfl, rfl⟩

end OwningBytes
